import Mathlib

/-!
Shallow embedding of the ChartjsNodeCanvas render facade.

The repository is a thin adapter between the chart.js charting engine and a
native canvas library. The embedding below translates the first-party logic
of `src/src/index.ts` (constructor validation, BackgroundColourPlugin,
initialize, renderChart, renderToBuffer, renderToBufferSync, registerFont)
and of the compiled variant `src/unnamed/part_001` (renderToDataURL,
renderToDataURLSync, which exist only there). The two external collaborators
(the chart engine and the canvas surface) are modelled as oracles: the chart
constructor is a function that either returns a chart object or throws, and
each encoder is an `Except` value standing for the encoding outcome. Side
effects (the process-global Image slot, the in-place configuration mutation,
calls into the collaborators) are made explicit as returned state and event
traces.
-/

/-- A JavaScript number: NaN or a finite value (finite values are modelled as
integers, which is enough to express truthiness, the typeof check and
positivity). -/
inductive JSNumber where
  | nan : JSNumber
  | fin (v : Int) : JSNumber
deriving DecidableEq

/-- A JavaScript primitive value, as far as the facade inspects values:
undefined, null, booleans, numbers and strings. -/
inductive JSVal where
  | undef : JSVal
  | jnull : JSVal
  | jbool (b : Bool) : JSVal
  | jnum (n : JSNumber) : JSVal
  | jstr (s : String) : JSVal
deriving DecidableEq

/-- JavaScript truthiness of a primitive: undefined, null, false, 0, NaN and
the empty string are falsy. -/
def truthy : JSVal → Bool
  | .undef => false
  | .jnull => false
  | .jbool b => b
  | .jnum .nan => false
  | .jnum (.fin v) => v != 0
  | .jstr s => s != ""

/-- Whether `typeof v` is the string "number". -/
def isNumberType : JSVal → Bool
  | .jnum _ => true
  | _ => false

/-- Whether a value is a positive (finite) number. Used to state the spec
wording "positive numeric value"; the source itself never tests positivity. -/
def isPositiveNumber : JSVal → Bool
  | .jnum (.fin v) => decide (0 < v)
  | _ => false

/-- The width and height fields of an options object passed to the
ChartJSNodeCanvas constructor; each field holds an arbitrary value. -/
structure OptionsObj where
  width : JSVal
  height : JSVal
deriving DecidableEq

/-- The argument of the ChartJSNodeCanvas constructor: undefined, null, a
non-object primitive, or an object carrying width and height fields. -/
inductive CtorArg where
  | undefArg : CtorArg
  | nullArg : CtorArg
  | primArg (v : JSVal) : CtorArg
  | objArg (o : OptionsObj) : CtorArg
deriving DecidableEq

/-- The validation performed by the ChartJSNodeCanvas constructor
(src/src/index.ts lines 96-106): throw when the argument is null or not an
object; throw when `!options.width || typeof options.width !== "number"`;
throw when the same holds of height; otherwise accept. `some msg` is the
thrown error message, `none` is successful construction. -/
def ctorCheck : CtorArg → Option String
  | .undefArg => some "An options parameter object is required"
  | .nullArg => some "An options parameter object is required"
  | .primArg _ => some "An options parameter object is required"
  | .objArg o =>
    if !truthy o.width || !isNumberType o.width then
      some "A width option is required"
    else if !truthy o.height || !isNumberType o.height then
      some "A height option is required"
    else
      none

/-- The success condition of `ctorCheck`, written out: the argument is an
object whose width and height are truthy values of number type. -/
def validOptionsArg : CtorArg → Bool
  | .objArg o =>
    truthy o.width && isNumberType o.width && truthy o.height && isNumberType o.height
  | _ => false

/-- Modelled from the spec claim wording, for comparison with `ctorCheck`:
the claim asks for a construction error exactly when the argument is missing
or not an object, or width is absent or not a positive numeric value, or
height is absent or not a positive numeric value. -/
def specCtorRequiresError : CtorArg → Bool
  | .objArg o => !isPositiveNumber o.width || !isPositiveNumber o.height
  | _ => true

/-- A chart.js options record as the facade touches it: the responsive and
animation fields it overwrites, plus the remaining properties, which it never
reads or writes, kept as an association list. -/
structure ChartOptions where
  responsive : JSVal
  animation : JSVal
  restOpts : List (String × JSVal)
deriving DecidableEq

/-- The fresh empty object assigned by `configuration.options =
configuration.options || {}` when the options record is absent. -/
def emptyChartOptions : ChartOptions := ⟨.undef, .undef, []⟩

/-- A caller-supplied ChartConfiguration as the facade touches it: the chart
type and data fields are opaque to the facade, `options` may be absent, and
any further properties are kept as an association list. -/
structure ChartConfiguration where
  ctype : JSVal
  cdata : JSVal
  options : Option ChartOptions
  restCfg : List (String × JSVal)
deriving DecidableEq

/-- The in-place mutation renderChart performs on the caller configuration
(src/src/index.ts lines 171-173): create the options record when absent, then
set `options.responsive = false` and `options.animation = false`, leaving
every other field alone. -/
def forceNonInteractive (c : ChartConfiguration) : ChartConfiguration :=
  let o := c.options.getD emptyChartOptions
  { c with
    options := some { o with responsive := .jbool false, animation := .jbool false } }

/-- A chart instance as the facade sees it after construction: only its
`canvas` reference is inspected (it may be absent). -/
structure Chart where
  canvas : Option Nat
deriving DecidableEq

/-- The process-global bindings the facade touches: the global `Image` slot,
absent (`none`) or bound to some value. -/
structure GlobalEnv where
  imageSlot : Option String
deriving DecidableEq

/-- The value the facade stores in the global Image slot (`this._image`, the
canvas library Image constructor). -/
def facadeImage : String := "canvas-library-Image"

/-- Observable calls a render method makes into the collaborators and onto
the process-global state, in order. -/
inductive REvent where
  | setGlobalImageEv : REvent
  | constructChartEv : REvent
  | clearGlobalImageEv : REvent
  | destroyChartEv : REvent
  | encodeEv (mime : String) : REvent
  | toDataURLEv (mime : String) : REvent
deriving DecidableEq

/-- ChartJSNodeCanvas.renderChart (src/src/index.ts lines 167-179): allocate
the canvas (left implicit), force the configuration non-interactive, set the
global Image slot, construct the chart, and on the line after construction
delete the global Image slot. There is no try/finally: when the chart
constructor throws, the delete never runs, so on the error branch the slot
stays bound. Returns the construction outcome, the global state after the
call, the configuration after the in-place mutation, and the event trace. -/
def renderChart (construct : ChartConfiguration → Except String Chart)
    (cfg : ChartConfiguration) (g : GlobalEnv) :
    Except String Chart × GlobalEnv × ChartConfiguration × List REvent :=
  match construct (forceNonInteractive cfg) with
  | .error e =>
    (.error e, { g with imageSlot := some facadeImage }, forceNonInteractive cfg,
      [.setGlobalImageEv, .constructChartEv])
  | .ok ch =>
    (.ok ch, { g with imageSlot := none }, forceNonInteractive cfg,
      [.setGlobalImageEv, .constructChartEv, .clearGlobalImageEv])

/-- The outcome of a public render method: its result or thrown error, the
global state after the call, the caller configuration after the call, and the
trace of collaborator calls. -/
structure RenderOut (α : Type) where
  result : Except String α
  env : GlobalEnv
  cfgAfter : ChartConfiguration
  events : List REvent

/-- ChartJSNodeCanvas.renderToBuffer (src/src/index.ts lines 123-126):
render the chart, then call `chart.canvas.encode("png")`. The encoder outcome
is the oracle `enc`. When the canvas reference is absent the property access
on undefined throws. The chart is never destroyed. -/
def renderToBuffer (construct : ChartConfiguration → Except String Chart)
    (enc : Except String String) (cfg : ChartConfiguration) (g : GlobalEnv) :
    RenderOut String :=
  match renderChart construct cfg g with
  | (.error e, g2, cfg2, evs) => ⟨.error e, g2, cfg2, evs⟩
  | (.ok ch, g2, cfg2, evs) =>
    match ch.canvas with
    | none => ⟨.error "TypeError: chart.canvas is undefined", g2, cfg2, evs⟩
    | some _ => ⟨enc, g2, cfg2, evs ++ [.encodeEv "png"]⟩

/-- ChartJSNodeCanvas.renderToBufferSync (src/src/index.ts lines 135-139):
render the chart, then call `chart.canvas.toBuffer("image/png")`. The chart
is never destroyed. -/
def renderToBufferSync (construct : ChartConfiguration → Except String Chart)
    (enc : Except String String) (cfg : ChartConfiguration) (g : GlobalEnv) :
    RenderOut String :=
  match renderChart construct cfg g with
  | (.error e, g2, cfg2, evs) => ⟨.error e, g2, cfg2, evs⟩
  | (.ok ch, g2, cfg2, evs) =>
    match ch.canvas with
    | none => ⟨.error "TypeError: chart.canvas is undefined", g2, cfg2, evs⟩
    | some _ => ⟨enc, g2, cfg2, evs ++ [.encodeEv "image/png"]⟩

/-- ChartJSNodeCanvas.renderToDataURL (src/unnamed/part_001 lines 34-49):
render the chart; reject with "Canvas is null" when the canvas reference is
absent; otherwise call `canvas.toDataURL(mimeType, callback)`, and in the
callback destroy the chart, then reject with the encoder error or resolve
with the data URL. The encoder outcome is the oracle `enc`. -/
def renderToDataURL (construct : ChartConfiguration → Except String Chart)
    (enc : Except String String) (mime : String) (cfg : ChartConfiguration)
    (g : GlobalEnv) : RenderOut String :=
  match renderChart construct cfg g with
  | (.error e, g2, cfg2, evs) => ⟨.error e, g2, cfg2, evs⟩
  | (.ok ch, g2, cfg2, evs) =>
    match ch.canvas with
    | none => ⟨.error "Canvas is null", g2, cfg2, evs⟩
    | some _ =>
      match enc with
      | .error e => ⟨.error e, g2, cfg2, evs ++ [.toDataURLEv mime, .destroyChartEv]⟩
      | .ok url => ⟨.ok url, g2, cfg2, evs ++ [.toDataURLEv mime, .destroyChartEv]⟩

/-- ChartJSNodeCanvas.renderToDataURLSync (src/unnamed/part_001 lines 57-66):
render the chart; throw "Canvas is null" when the canvas reference is absent;
otherwise call `canvas.toDataURL(mimeType)`, destroy the chart, and return
the data URL. When the encoder itself throws, the destroy line after it never
runs and the error propagates. -/
def renderToDataURLSync (construct : ChartConfiguration → Except String Chart)
    (enc : Except String String) (mime : String) (cfg : ChartConfiguration)
    (g : GlobalEnv) : RenderOut String :=
  match renderChart construct cfg g with
  | (.error e, g2, cfg2, evs) => ⟨.error e, g2, cfg2, evs⟩
  | (.ok ch, g2, cfg2, evs) =>
    match ch.canvas with
    | none => ⟨.error "Canvas is null", g2, cfg2, evs⟩
    | some _ =>
      match enc with
      | .error e => ⟨.error e, g2, cfg2, evs ++ [.toDataURLEv mime]⟩
      | .ok url => ⟨.ok url, g2, cfg2, evs ++ [.toDataURLEv mime, .destroyChartEv]⟩

/-- The facade construction options as the one-time engine setup reads them:
width, height, whether a chartCallback was supplied, and the (declared but,
as it turns out, never read) backgroundColour option. -/
structure FacadeOptions where
  width : Int
  height : Int
  hasChartCallback : Bool
  backgroundColour : Option String
deriving DecidableEq

/-- Observable steps of the one-time engine setup, in order. -/
inductive InitEvent where
  | requireChartJsEv : InitEvent
  | invokeChartCallbackEv : InitEvent
  | registerPluginEv (width height : Int) (fillStyle : String) : InitEvent
  | evictCacheEv : InitEvent
deriving DecidableEq

/-- ChartJSNodeCanvas.initialize (src/src/index.ts lines 153-165): require a
fresh chart.js module; invoke the chartCallback with it when one was
supplied; register `new BackgroundColourPlugin(options.width, options.height,
"#fff")` — the literal "#fff", with `options.backgroundColour` never read;
then delete the chart.js entry from the require cache and return. -/
def initChartEngine (o : FacadeOptions) : List InitEvent :=
  [.requireChartJsEv]
    ++ (if o.hasChartCallback then [.invokeChartCallbackEv] else [])
    ++ [.registerPluginEv o.width o.height "#fff", .evictCacheEv]

/-- The mutable drawing state of a 2D context: the fillStyle attribute the
plugin writes, plus the rest of the state attributes, which it never
touches, kept as an association list. -/
structure CtxState where
  fillStyle : String
  restState : List (String × JSVal)
deriving DecidableEq

/-- A paint operation recorded against the surface. -/
inductive DrawOp where
  | fillRectOp (x y w h : Int) (style : String) : DrawOp
deriving DecidableEq

/-- A 2D drawing context: its current state, the save/restore stack, and the
operations painted so far. -/
structure Ctx where
  state : CtxState
  stack : List CtxState
  ops : List DrawOp
deriving DecidableEq

/-- CanvasRenderingContext2D.save: push the current state onto the stack. -/
def ctxSave (c : Ctx) : Ctx := { c with stack := c.state :: c.stack }

/-- CanvasRenderingContext2D.restore: pop the stack into the current state;
with an empty stack it does nothing. -/
def ctxRestore (c : Ctx) : Ctx :=
  match c.stack with
  | [] => c
  | s :: rest => { c with state := s, stack := rest }

/-- Assignment to ctx.fillStyle. -/
def ctxSetFillStyle (style : String) (c : Ctx) : Ctx :=
  { c with state := { c.state with fillStyle := style } }

/-- CanvasRenderingContext2D.fillRect: paint a rectangle with the current
fill style. -/
def ctxFillRect (x y w h : Int) (c : Ctx) : Ctx :=
  { c with ops := c.ops ++ [.fillRectOp x y w h c.state.fillStyle] }

/-- The three values BackgroundColourPlugin captures at construction
(src/src/index.ts lines 31-35). -/
structure BackgroundColourPlugin where
  width : Int
  height : Int
  fillStyle : String
deriving DecidableEq

/-- BackgroundColourPlugin.beforeDraw (src/src/index.ts lines 37-44):
ctx.save(); ctx.fillStyle := captured fill style; ctx.fillRect(0, 0, width,
height); ctx.restore(). -/
def beforeDraw (p : BackgroundColourPlugin) (c : Ctx) : Ctx :=
  ctxRestore (ctxFillRect 0 0 p.width p.height (ctxSetFillStyle p.fillStyle (ctxSave c)))

/-- What ChartJSNodeCanvas.registerFont forwards to the canvas library font
registry (src/src/index.ts lines 149-151, `GlobalFonts.registerFromPath(path,
options.family)`): the file path and the family name, nothing else. -/
structure FontRegistration where
  path : String
  family : String
deriving DecidableEq

/-- The options argument of registerFont: a family name with optional weight
and style. -/
structure FontOptions where
  family : String
  weight : Option String
  style : Option String
deriving DecidableEq

/-- ChartJSNodeCanvas.registerFont (src/src/index.ts lines 149-151): register
the font file under the family name; the weight and style options are not
forwarded. -/
def registerFont (path : String) (o : FontOptions) : FontRegistration :=
  ⟨path, o.family⟩

/-- The mime strings a trace requested from the buffer encoder. -/
def requestedMimes : List REvent → List String
  | [] => []
  | .encodeEv m :: evs => m :: requestedMimes evs
  | _ :: evs => requestedMimes evs

/-- A sample configuration used by the concrete evaluations below. -/
def cfgEx : ChartConfiguration := ⟨.jstr "bar", .undef, none, []⟩

/-- A global environment in which the Image slot is not bound. -/
def g0 : GlobalEnv := ⟨none⟩

/-- A chart engine whose constructor throws, as chart.js does on a malformed
configuration (for example an unregistered chart type). -/
def failingConstruct : ChartConfiguration → Except String Chart :=
  fun _ => .error "not a registered controller"

/-- A chart engine whose constructor succeeds and whose chart carries a
canvas reference. -/
def okConstruct : ChartConfiguration → Except String Chart :=
  fun _ => .ok ⟨some 1⟩

/-- A positive finite number is truthy and of number type. -/
theorem isPositiveNumber_truthy_numberType (v : JSVal) (h : isPositiveNumber v = true) :
    truthy v = true ∧ isNumberType v = true := by
  cases v with
  | jnum n =>
    cases n with
    | nan => simp [isPositiveNumber] at h
    | fin k =>
      simp only [isPositiveNumber, decide_eq_true_eq] at h
      refine ⟨?_, rfl⟩
      simp only [truthy, bne_iff_ne, ne_eq]
      omega
  | undef => simp [isPositiveNumber] at h
  | jnull => simp [isPositiveNumber] at h
  | jbool b => simp [isPositiveNumber] at h
  | jstr s => simp [isPositiveNumber] at h

/-- C1: evaluation at a failing input. When the chart constructor throws, the
process-global Image slot is still bound to the facade image after each of
the four render methods returns, because the delete of the slot is on the
line after chart construction with no try/finally; on a successful render
the slot is cleared. This contradicts the claim that the slot is cleared on
every exit path. -/
theorem c1_image_slot_leaks_when_construction_throws :
    (renderToBuffer failingConstruct (.ok "bytes") cfgEx g0).result
        = .error "not a registered controller" ∧
    (renderToBuffer failingConstruct (.ok "bytes") cfgEx g0).env.imageSlot
        = some facadeImage ∧
    (renderToBufferSync failingConstruct (.ok "bytes") cfgEx g0).env.imageSlot
        = some facadeImage ∧
    (renderToDataURL failingConstruct (.ok "data-url") "image/png" cfgEx g0).env.imageSlot
        = some facadeImage ∧
    (renderToDataURLSync failingConstruct (.ok "data-url") "image/png" cfgEx g0).env.imageSlot
        = some facadeImage ∧
    (renderToBuffer okConstruct (.ok "bytes") cfgEx g0).env.imageSlot = none :=
  ⟨rfl, rfl, rfl, rfl, rfl, rfl⟩

/-- C2: counterexample. For an options object with width -5 and height 300
the claim requires a construction error (width is not a positive numeric
value), but the constructor accepts it: the code tests only
`!options.width || typeof options.width !== "number"`, which negative
numbers pass. -/
theorem c2_negative_width_accepted :
    specCtorRequiresError (.objArg ⟨.jnum (.fin (-5)), .jnum (.fin 300)⟩) = true ∧
    ctorCheck (.objArg ⟨.jnum (.fin (-5)), .jnum (.fin 300)⟩) = none :=
  ⟨rfl, rfl⟩

/-- C2 (amended): the constructor raises an error exactly when the argument
is missing or not an object, or width is absent, zero, NaN or not of number
type, or height is likewise; equivalently, construction succeeds exactly when
the argument is an object whose width and height are truthy values of number
type. In particular every options object whose width and height are positive
numbers is accepted, but so are negative ones. -/
theorem c2_construction_validation (arg : CtorArg) :
    (ctorCheck arg = none ↔ validOptionsArg arg = true) ∧
    (∀ o : OptionsObj,
      isPositiveNumber o.width = true → isPositiveNumber o.height = true →
        ctorCheck (.objArg o) = none) := by
  constructor
  · cases arg with
    | undefArg => simp [ctorCheck, validOptionsArg]
    | nullArg => simp [ctorCheck, validOptionsArg]
    | primArg v => simp [ctorCheck, validOptionsArg]
    | objArg o =>
      cases h1 : truthy o.width <;> cases h2 : isNumberType o.width <;>
        cases h3 : truthy o.height <;> cases h4 : isNumberType o.height <;>
          simp [ctorCheck, validOptionsArg, h1, h2, h3, h4]
  · intro o hw hh
    obtain ⟨hw1, hw2⟩ := isPositiveNumber_truthy_numberType o.width hw
    obtain ⟨hh1, hh2⟩ := isPositiveNumber_truthy_numberType o.height hh
    simp [ctorCheck, hw1, hw2, hh1, hh2]

/-- C4: evaluation at a failing input. With backgroundColour supplied as
"red", the engine setup still constructs the Background-Fill plugin with the
literal "#fff": the backgroundColour option is declared and documented in
ChartJSNodeCanvasOptions but never read by initialize. -/
theorem c4_background_colour_ignored :
    initChartEngine ⟨400, 300, false, some "red"⟩
        = [.requireChartJsEv, .registerPluginEv 400 300 "#fff", .evictCacheEv] ∧
    (∀ o : FacadeOptions, .registerPluginEv o.width o.height "#fff" ∈ initChartEngine o) := by
  refine ⟨rfl, fun o => ?_⟩
  cases h : o.hasChartCallback <;> simp [initChartEngine, h]

/-- C6: on every beforeDraw event the Background-Fill plugin paints exactly
one rectangle from the origin with its captured width, height and fill style,
and the drawing state and save stack after the hook equal those before it. -/
theorem c6_before_draw_paints_and_restores (p : BackgroundColourPlugin) (c : Ctx) :
    (beforeDraw p c).state = c.state ∧
    (beforeDraw p c).stack = c.stack ∧
    (beforeDraw p c).ops = c.ops ++ [.fillRectOp 0 0 p.width p.height p.fillStyle] :=
  ⟨rfl, rfl, rfl⟩

/-- C9: counterexample. Registering a font with weight "bold" and style
"italic" produces exactly the same registry call as registering it with no
weight and no style, so the weight and style values supplied in the options
are not registered with the font registry. -/
theorem c9_weight_style_not_forwarded :
    registerFont "comicsans.ttf" ⟨"Comic Sans", some "bold", some "italic"⟩
      = registerFont "comicsans.ttf" ⟨"Comic Sans", none, none⟩ :=
  rfl

/-- C9 (amended): registerFont registers the font file with the process-wide
font registry under the given family name only; the optional weight and
style values are accepted by the signature but not forwarded. -/
theorem c9_register_font_family_only (path : String) (o : FontOptions) :
    registerFont path o = ⟨path, o.family⟩ ∧
    registerFont path o = registerFont path ⟨o.family, none, none⟩ :=
  ⟨rfl, rfl⟩

/-- renderChart, rewritten on the branch where the chart constructor
throws. -/
theorem renderChart_construct_error {construct : ChartConfiguration → Except String Chart}
    {cfg : ChartConfiguration} {e : String} (g : GlobalEnv)
    (h : construct (forceNonInteractive cfg) = .error e) :
    renderChart construct cfg g
      = (.error e, { g with imageSlot := some facadeImage }, forceNonInteractive cfg,
          [.setGlobalImageEv, .constructChartEv]) := by
  unfold renderChart
  rw [h]

/-- renderChart, rewritten on the branch where the chart constructor
succeeds. -/
theorem renderChart_construct_ok {construct : ChartConfiguration → Except String Chart}
    {cfg : ChartConfiguration} {ch : Chart} (g : GlobalEnv)
    (h : construct (forceNonInteractive cfg) = .ok ch) :
    renderChart construct cfg g
      = (.ok ch, { g with imageSlot := none }, forceNonInteractive cfg,
          [.setGlobalImageEv, .constructChartEv, .clearGlobalImageEv]) := by
  unfold renderChart
  rw [h]

/-- C3: every render method rewrites the caller configuration in place so
that afterwards options.responsive and options.animation are false (creating
the options record when absent and keeping its other properties), and
changes no other field of the configuration. -/
theorem c3_forces_two_fields_only
    (construct : ChartConfiguration → Except String Chart)
    (enc : Except String String) (mime : String)
    (cfg : ChartConfiguration) (g : GlobalEnv) :
    (forceNonInteractive cfg).options
      = some ⟨.jbool false, .jbool false, (cfg.options.getD emptyChartOptions).restOpts⟩ ∧
    (forceNonInteractive cfg).ctype = cfg.ctype ∧
    (forceNonInteractive cfg).cdata = cfg.cdata ∧
    (forceNonInteractive cfg).restCfg = cfg.restCfg ∧
    (renderToBuffer construct enc cfg g).cfgAfter = forceNonInteractive cfg ∧
    (renderToBufferSync construct enc cfg g).cfgAfter = forceNonInteractive cfg ∧
    (renderToDataURL construct enc mime cfg g).cfgAfter = forceNonInteractive cfg ∧
    (renderToDataURLSync construct enc mime cfg g).cfgAfter = forceNonInteractive cfg := by
  refine ⟨rfl, rfl, rfl, rfl, ?_, ?_, ?_, ?_⟩ <;>
  · rcases hc : construct (forceNonInteractive cfg) with e | ch
    · simp [renderToBuffer, renderToBufferSync, renderToDataURL, renderToDataURLSync,
        renderChart_construct_error g hc]
    · rcases hcv : ch.canvas with _ | n
      · simp [renderToBuffer, renderToBufferSync, renderToDataURL, renderToDataURLSync,
          renderChart_construct_ok g hc, hcv]
      · rcases enc with ee | s <;>
          simp [renderToBuffer, renderToBufferSync, renderToDataURL, renderToDataURLSync,
            renderChart_construct_ok g hc, hcv]

/-- C5: the one-time engine setup first requires a fresh chart.js module,
invokes the chartCallback exactly when one was supplied, unconditionally
registers the Background-Fill plugin with the facade width and height and the
opaque white fill, and ends by evicting the module from the require cache
before returning the module reference. -/
theorem c5_init_sequence (o : FacadeOptions) :
    .registerPluginEv o.width o.height "#fff" ∈ initChartEngine o ∧
    (initChartEngine o).head? = some .requireChartJsEv ∧
    (∃ pre, initChartEngine o = pre ++ [.evictCacheEv]) ∧
    (o.hasChartCallback = true →
      initChartEngine o = [.requireChartJsEv, .invokeChartCallbackEv,
        .registerPluginEv o.width o.height "#fff", .evictCacheEv]) ∧
    (o.hasChartCallback = false →
      initChartEngine o = [.requireChartJsEv,
        .registerPluginEv o.width o.height "#fff", .evictCacheEv]) := by
  cases h : o.hasChartCallback
  · exact ⟨by simp [initChartEngine, h],
      by simp [initChartEngine, h],
      ⟨[.requireChartJsEv, .registerPluginEv o.width o.height "#fff"],
        by simp [initChartEngine, h]⟩,
      by simp [h],
      fun _ => by simp [initChartEngine, h]⟩
  · exact ⟨by simp [initChartEngine, h],
      by simp [initChartEngine, h],
      ⟨[.requireChartJsEv, .invokeChartCallbackEv,
          .registerPluginEv o.width o.height "#fff"],
        by simp [initChartEngine, h]⟩,
      fun _ => by simp [initChartEngine, h],
      by simp [h]⟩

/-- C7: after a successful chart construction, renderToDataURL and
renderToDataURLSync fail with the Canvas-is-null error exactly when the
chart canvas reference is absent; when it is present, that error branch is
not taken and the encoder outcome, success or failure, is returned
unchanged. -/
theorem c7_data_url_canvas_guard
    (construct : ChartConfiguration → Except String Chart)
    (enc : Except String String) (mime : String)
    (cfg : ChartConfiguration) (g : GlobalEnv) (ch : Chart)
    (hc : construct (forceNonInteractive cfg) = .ok ch) :
    (ch.canvas = none →
      (renderToDataURL construct enc mime cfg g).result = .error "Canvas is null" ∧
      (renderToDataURLSync construct enc mime cfg g).result = .error "Canvas is null") ∧
    (∀ n : Nat, ch.canvas = some n →
      (renderToDataURL construct enc mime cfg g).result = enc ∧
      (renderToDataURLSync construct enc mime cfg g).result = enc) := by
  constructor
  · intro hnone
    constructor <;>
      simp [renderToDataURL, renderToDataURLSync, renderChart_construct_ok g hc, hnone]
  · intro n hsome
    rcases enc with e | s <;>
      constructor <;>
        simp [renderToDataURL, renderToDataURLSync, renderChart_construct_ok g hc, hsome]

/-- C7 witness: the canvas-absent side evaluated with a chart engine that
yields a chart with no canvas reference, and the canvas-present side with
one that yields a chart with a canvas reference. -/
theorem c7_data_url_canvas_guard_witness :
    (renderToDataURL (fun _ => .ok ⟨none⟩) (.ok "data-url") "image/png" cfgEx g0).result
      = .error "Canvas is null" ∧
    (renderToDataURL okConstruct (.ok "data-url") "image/png" cfgEx g0).result
      = .ok "data-url" :=
  ⟨((c7_data_url_canvas_guard (fun _ => .ok ⟨none⟩) (.ok "data-url") "image/png"
      cfgEx g0 ⟨none⟩ rfl).1 rfl).1,
   ((c7_data_url_canvas_guard okConstruct (.ok "data-url") "image/png"
      cfgEx g0 ⟨some 1⟩ rfl).2 1 rfl).1⟩

/-- C8: counterexample. A successful renderToBuffer call delivers its encoded
result while its event trace contains no chart destruction, and the same
holds of renderToBufferSync, so the buffer methods do not destroy the chart
instance they constructed. -/
theorem c8_buffer_never_destroys :
    (renderToBuffer okConstruct (.ok "png-bytes") cfgEx g0).result = .ok "png-bytes" ∧
    (renderToBuffer okConstruct (.ok "png-bytes") cfgEx g0).events.count .destroyChartEv = 0 ∧
    (renderToBufferSync okConstruct (.ok "png-bytes") cfgEx g0).events.count .destroyChartEv
      = 0 :=
  ⟨rfl, rfl, rfl⟩

/-- C8 (amended): every render method constructs exactly one fresh chart per
call; renderToDataURL destroys it in the encode callback whatever the encoder
outcome, renderToDataURLSync destroys it after a successful encode, and
renderToBuffer and renderToBufferSync never destroy it. -/
theorem c8_chart_lifecycle
    (construct : ChartConfiguration → Except String Chart)
    (enc : Except String String) (mime : String)
    (cfg : ChartConfiguration) (g : GlobalEnv) :
    (renderToBuffer construct enc cfg g).events.count .constructChartEv = 1 ∧
    (renderToBufferSync construct enc cfg g).events.count .constructChartEv = 1 ∧
    (renderToDataURL construct enc mime cfg g).events.count .constructChartEv = 1 ∧
    (renderToDataURLSync construct enc mime cfg g).events.count .constructChartEv = 1 ∧
    (renderToBuffer construct enc cfg g).events.count .destroyChartEv = 0 ∧
    (renderToBufferSync construct enc cfg g).events.count .destroyChartEv = 0 ∧
    (renderToDataURL construct enc mime cfg g).events.count .destroyChartEv
      = (match construct (forceNonInteractive cfg) with
         | .error _ => 0
         | .ok ch =>
           match ch.canvas with
           | none => 0
           | some _ => 1) ∧
    (renderToDataURLSync construct enc mime cfg g).events.count .destroyChartEv
      = (match construct (forceNonInteractive cfg) with
         | .error _ => 0
         | .ok ch =>
           match ch.canvas with
           | none => 0
           | some _ =>
             match enc with
             | .error _ => 0
             | .ok _ => 1) := by
  rcases hc : construct (forceNonInteractive cfg) with e | ch
  · refine ⟨?_, ?_, ?_, ?_, ?_, ?_, ?_, ?_⟩ <;>
      simp [renderToBuffer, renderToBufferSync, renderToDataURL, renderToDataURLSync,
        renderChart_construct_error g hc, List.count_cons, List.count_nil]
  · rcases hcv : ch.canvas with _ | n
    · refine ⟨?_, ?_, ?_, ?_, ?_, ?_, ?_, ?_⟩ <;>
        simp [renderToBuffer, renderToBufferSync, renderToDataURL, renderToDataURLSync,
          renderChart_construct_ok g hc, hcv, List.count_cons, List.count_nil]
    · rcases enc with ee | s <;>
        refine ⟨?_, ?_, ?_, ?_, ?_, ?_, ?_, ?_⟩ <;>
          simp [renderToBuffer, renderToBufferSync, renderToDataURL, renderToDataURLSync,
            renderChart_construct_ok g hc, hcv, List.count_cons, List.count_nil,
            List.count_append]

/-- C10: whatever the configuration and the collaborator outcomes, any
encoding the buffer methods request is PNG: renderToBuffer only ever passes
"png" and renderToBufferSync only ever passes "image/png" to the surface
encoder, so JPEG output cannot be selected through the buffer-returning
methods. -/
theorem c10_buffer_methods_encode_png
    (construct : ChartConfiguration → Except String Chart)
    (enc : Except String String) (cfg : ChartConfiguration) (g : GlobalEnv) :
    (requestedMimes (renderToBuffer construct enc cfg g).events = []
      ∨ requestedMimes (renderToBuffer construct enc cfg g).events = ["png"]) ∧
    (requestedMimes (renderToBufferSync construct enc cfg g).events = []
      ∨ requestedMimes (renderToBufferSync construct enc cfg g).events = ["image/png"]) ∧
    "image/jpeg" ∉ requestedMimes (renderToBuffer construct enc cfg g).events ∧
    "image/jpeg" ∉ requestedMimes (renderToBufferSync construct enc cfg g).events := by
  rcases hc : construct (forceNonInteractive cfg) with e | ch
  · refine ⟨Or.inl ?_, Or.inl ?_, ?_, ?_⟩ <;>
      simp [renderToBuffer, renderToBufferSync,
        renderChart_construct_error g hc, requestedMimes]
  · rcases hcv : ch.canvas with _ | n
    · refine ⟨Or.inl ?_, Or.inl ?_, ?_, ?_⟩ <;>
        simp [renderToBuffer, renderToBufferSync,
          renderChart_construct_ok g hc, hcv, requestedMimes]
    · refine ⟨Or.inr ?_, Or.inr ?_, ?_, ?_⟩ <;>
        simp [renderToBuffer, renderToBufferSync,
          renderChart_construct_ok g hc, hcv, requestedMimes]
